import Mathlib

/-!
Verification of the gesture-driven virtual-interaction and coordinate
reconciliation engine of the photobooth application.

The JavaScript sources are shallowly embedded:
* `recognizeGesture`  — `MediaPipeHandler.recognizeGesture` (mediapipe-handler.js)
* `getVideoScale`     — `VRPhotoboothApp.getVideoScale` (app source)
* `mapPoint`          — the per-landmark coordinate math of
                        `drawHandLandmarks` / `drawFaceLandmarks`
* `Interaction.*`     — `VirtualInteractionHandler` (virtual-interaction.js)
* `GestureTimer.*`    — `VRPhotoboothApp.checkPeaceSignGesture`

Numbers are modelled as `ℚ` (JavaScript numbers on the values appearing here:
normalized coordinates, pixel sizes and millisecond timestamps — all exactly
representable, and no operation used leaves `ℚ`, the one square root in the
sources being eliminated by comparing squared distances against the squared
threshold, which is equivalent since both sides are nonnegative).
Absent (`null`/`undefined`) values are modelled with `Option`.
-/

/-- A normalized landmark point `{x, y, z}` as produced by the detector. -/
structure Pt where
  x : ℚ
  y : ℚ
  z : ℚ
deriving DecidableEq, Repr, Inhabited

/-! ## Gesture classifier

`MediaPipeHandler.recognizeGesture(landmarks)`.  The five per-finger booleans
are computed exactly as in the source (`tip.y < pip.y`, thumb using landmark 4
against landmark 3), then fed to the literal if/else chain, factored here into
`classifyFingers` so the chain can also be compared with the spec's ordered
decision table. -/

/-- The literal if/else chain of `recognizeGesture` over the five
`*Up` booleans, in source order. -/
def classifyFingers (thumbUp indexUp middleUp ringUp pinkyUp : Bool) : String :=
  if indexUp && !middleUp && !ringUp && !pinkyUp then "point"
  else if indexUp && middleUp && !ringUp && !pinkyUp then "peace"
  else if indexUp && middleUp && ringUp && pinkyUp && thumbUp then "open"
  else if !indexUp && !middleUp && !ringUp && !pinkyUp && !thumbUp then "fist"
  else if thumbUp && indexUp && !middleUp && !ringUp && !pinkyUp then "thumbs_up"
  else "unknown"

/-- `MediaPipeHandler.recognizeGesture`: `none` models a `null`/`undefined`
landmark array (`!landmarks` in the source). -/
def recognizeGesture (landmarks : Option (List Pt)) : String :=
  match landmarks with
  | none => "unknown"
  | some l =>
    if l.length ≠ 21 then "unknown"
    else
      let thumbTip := l.getD 4 default
      let indexTip := l.getD 8 default
      let middleTip := l.getD 12 default
      let ringTip := l.getD 16 default
      let pinkyTip := l.getD 20 default
      let thumbPip := l.getD 3 default
      let indexPip := l.getD 6 default
      let middlePip := l.getD 10 default
      let ringPip := l.getD 14 default
      let pinkyPip := l.getD 18 default
      classifyFingers (decide (thumbTip.y < thumbPip.y))
        (decide (indexTip.y < indexPip.y))
        (decide (middleTip.y < middlePip.y))
        (decide (ringTip.y < ringPip.y))
        (decide (pinkyTip.y < pinkyPip.y))

/-! ### Spec-side decision table (for the refinement claim C1)

The spec describes the classifier as an ordered list of
`(finger pattern, symbol)` rules evaluated first-match-wins, over the
extended/retracted state of the five fingers, falling through to
`"unknown"`. -/

/-- Extended/retracted state of the five fingers, spec side. -/
structure FingerState where
  thumb : Bool
  index : Bool
  middle : Bool
  ring : Bool
  pinky : Bool
deriving DecidableEq, Repr

/-- The spec's five rules, in its fixed priority order:
point, peace, open, fist, thumbs_up. -/
def specRules : List ((FingerState → Bool) × String) :=
  [ (fun f => f.index && !f.middle && !f.ring && !f.pinky, "point"),
    (fun f => f.index && f.middle && !f.ring && !f.pinky, "peace"),
    (fun f => f.thumb && f.index && f.middle && f.ring && f.pinky, "open"),
    (fun f => !f.thumb && !f.index && !f.middle && !f.ring && !f.pinky, "fist"),
    (fun f => f.thumb && f.index && !f.middle && !f.ring && !f.pinky, "thumbs_up") ]

/-- First-match evaluation of an ordered rule list, `"unknown"` on fall-through. -/
def firstMatch (rules : List ((FingerState → Bool) × String)) (f : FingerState) : String :=
  match rules with
  | [] => "unknown"
  | (p, s) :: rest => if p f then s else firstMatch rest f

/-- Spec-side classifier: a finger is extended iff its tip's `y` is strictly
less than its pip's `y` (thumb: landmark 4 against landmark 3), then the
ordered decision table decides. -/
def specClassify (l : List Pt) : String :=
  firstMatch specRules
    { thumb := decide ((l.getD 4 default).y < (l.getD 3 default).y)
      index := decide ((l.getD 8 default).y < (l.getD 6 default).y)
      middle := decide ((l.getD 12 default).y < (l.getD 10 default).y)
      ring := decide ((l.getD 16 default).y < (l.getD 14 default).y)
      pinky := decide ((l.getD 20 default).y < (l.getD 18 default).y) }

/-! ## Viewport mapper

`VRPhotoboothApp.getVideoScale` and the per-landmark coordinate math of the
overlay drawing code. -/

/-- The scale/crop descriptor returned by `getVideoScale`. -/
structure VideoScale where
  width : ℚ
  height : ℚ
  offsetX : ℚ
  offsetY : ℚ
  cropX : ℚ
  cropY : ℚ
  cropWidth : ℚ
  cropHeight : ℚ
deriving DecidableEq, Repr

/-- `VRPhotoboothApp.getVideoScale`, given the source video dimensions and the
destination canvas dimensions (the source's early return for a missing
video/canvas element is outside this model: both surfaces exist). -/
def getVideoScale (videoWidth videoHeight canvasWidth canvasHeight : ℚ) : VideoScale :=
  let videoAspect := videoWidth / videoHeight
  let canvasAspect := canvasWidth / canvasHeight
  let base : VideoScale :=
    { width := canvasWidth, height := canvasHeight, offsetX := 0, offsetY := 0,
      cropX := 0, cropY := 0, cropWidth := 1, cropHeight := 1 }
  if |videoAspect - canvasAspect| > 1/100 then
    if videoAspect > canvasAspect then
      let visibleVideoWidth := videoHeight * canvasAspect
      let cropAmount := (videoWidth - visibleVideoWidth) / videoWidth
      { base with cropX := cropAmount / 2, cropWidth := 1 - cropAmount }
    else
      let visibleVideoHeight := videoWidth / canvasAspect
      let cropAmount := (videoHeight - visibleVideoHeight) / videoHeight
      { base with cropY := cropAmount / 2, cropHeight := 1 - cropAmount }
  else base

/-- The per-landmark coordinate math shared by `drawHandLandmarks` and
`drawFaceLandmarks`: normalize into the crop window, skip (return `none`) when
outside `[0,1]`, otherwise mirror horizontally and scale to the canvas. -/
def mapPoint (p : Pt) (scale : VideoScale) : Option (ℚ × ℚ) :=
  let normalizedX := (p.x - scale.cropX) / scale.cropWidth
  let normalizedY := (p.y - scale.cropY) / scale.cropHeight
  if normalizedX < 0 ∨ normalizedX > 1 ∨ normalizedY < 0 ∨ normalizedY > 1 then
    none
  else
    some ((1 - normalizedX) * scale.width + scale.offsetX,
          normalizedY * scale.height + scale.offsetY)

/-! ## Virtual interaction handler

`VirtualInteractionHandler` (virtual-interaction.js).  One `Button` record per
registered virtual target; each frame `updateHandPositions` receives the
detector's hand list, extracts index-fingertip pointer positions, and runs the
hover / hold / press machine over every registered button.

The source compares `Math.sqrt(dx*dx + dy*dy) < threshold`; the model compares
`dx^2 + dy^2 < threshold^2`, which is equivalent since both sides of the
source comparison are nonnegative.  The 200 ms `setTimeout` auto-release is
modelled as an explicit pending entry `(button id, due time)`; the closure's
captured button object survives unregistration in JavaScript, which the model
renders as a `graveyard` list holding unregistered records. -/
namespace Interaction

/-- One entry of `this.handPositions`: the raw index-fingertip position plus
the hand's gesture label. -/
structure HandPos where
  x : ℚ
  y : ℚ
  z : ℚ
  gesture : String
deriving DecidableEq, Repr

/-- A hand observation as delivered to `updateHandPositions`. -/
structure Hand where
  landmarks : List Pt
  gesture : String
deriving DecidableEq, Repr

/-- Element bounds as returned by `getBoundingClientRect`. -/
structure Bounds where
  left : ℚ
  top : ℚ
  width : ℚ
  height : ℚ
deriving DecidableEq, Repr

/-- Registration-time options (after the constructor's defaulting). -/
structure BtnOptions where
  threshold : ℚ
  holdTime : ℚ
  requireHold : Bool
deriving DecidableEq, Repr

/-- One registered virtual button with its runtime state. -/
structure Button where
  id : String
  bounds : Bounds
  isHovered : Bool
  isPressed : Bool
  holdStartTime : Option ℚ
  holdProgress : ℚ
  options : BtnOptions
deriving DecidableEq, Repr

/-- `registerButton`: fresh runtime state, options defaulted as in the source
(`threshold || 0.05`, `holdTime || 1000`, `requireHold !== false`). -/
def registerButton (id : String) (bounds : Bounds) (opts : BtnOptions) : Button :=
  { id := id, bounds := bounds, isHovered := false, isPressed := false,
    holdStartTime := none, holdProgress := 0, options := opts }

/-- Events emitted through the handler's callbacks. -/
inductive Event where
  | hoverEnter (id : String)
  | hoverLeave (id : String)
  | press (id : String)
  | release (id : String)
deriving DecidableEq, Repr

/-- Squared form of `calculateDistance`: the button center is normalized by
the window dimensions, the hand position is used as-is, z is ignored. -/
def calculateDistanceSq (handPos : HandPos) (bounds : Bounds)
    (innerWidth innerHeight : ℚ) : ℚ :=
  let buttonCenterX := (bounds.left + bounds.width / 2) / innerWidth
  let buttonCenterY := (bounds.top + bounds.height / 2) / innerHeight
  let dx := handPos.x - buttonCenterX
  let dy := handPos.y - buttonCenterY
  dx * dx + dy * dy

/-- The closest-qualifying-hand scan of `checkInteractions`: a hand qualifies
when its distance is strictly below the button's threshold; among qualifying
hands the strictly smallest distance wins (first seen on ties). -/
def findClosest (positions : List HandPos) (bounds : Bounds)
    (innerWidth innerHeight threshold : ℚ) : Option (HandPos × ℚ) :=
  positions.foldl
    (fun acc hand =>
      let dSq := calculateDistanceSq hand bounds innerWidth innerHeight
      if dSq < threshold ^ 2 then
        match acc with
        | none => some (hand, dSq)
        | some (_, bestSq) => if dSq < bestSq then some (hand, dSq) else acc
      else acc)
    none

/-- `resetHoldState`. -/
def resetHoldState (b : Button) : Button :=
  { b with holdStartTime := none, holdProgress := 0 }

/-- `handleHoverState`: enter/leave edge detection; leaving resets the hold
state. -/
def handleHoverState (b : Button) (isHovered : Bool) : Button × List Event :=
  if isHovered && !b.isHovered then
    ({ b with isHovered := true }, [Event.hoverEnter b.id])
  else if !isHovered && b.isHovered then
    (resetHoldState { b with isHovered := false }, [Event.hoverLeave b.id])
  else (b, [])

/-- `activateButton`: set pressed, emit `press`, schedule the 200 ms
auto-release. -/
def activateButton (b : Button) (now : ℚ) : Button × List Event × Option ℚ :=
  ({ b with isPressed := true }, [Event.press b.id], some (now + 200))

/-- `handlePressState`: hold-to-activate when `requireHold`, immediate
activation otherwise; not hovering resets the hold state. -/
def handlePressState (b : Button) (isHovered : Bool) (hand : Option HandPos)
    (now : ℚ) : Button × List Event × Option ℚ :=
  if isHovered && hand.isSome then
    if b.options.requireHold then
      let start := b.holdStartTime.getD now
      let holdDuration := now - start
      let progress := min (holdDuration / b.options.holdTime) 1
      let b' := { b with holdStartTime := some start, holdProgress := progress }
      if progress ≥ 1 && !b'.isPressed then activateButton b' now
      else (b', [], none)
    else
      if !b.isPressed then activateButton b now
      else (b, [], none)
  else (resetHoldState b, [], none)

/-- One button's slice of `checkInteractions`: compute hover from the current
hand positions, then run the hover and press state handlers. -/
def processButton (b : Button) (positions : List HandPos)
    (innerWidth innerHeight now : ℚ) : Button × List Event × Option ℚ :=
  let closest := findClosest positions b.bounds innerWidth innerHeight b.options.threshold
  let isHovered := closest.isSome
  let (b1, ev1) := handleHoverState b isHovered
  let (b2, ev2, sched) := handlePressState b1 isHovered (closest.map Prod.fst) now
  (b2, ev1 ++ ev2, sched)

/-- `releaseButton`: emit `release` only when still pressed; always reset the
hold state. -/
def releaseButton (b : Button) : Button × List Event :=
  if b.isPressed then
    (resetHoldState { b with isPressed := false }, [Event.release b.id])
  else (resetHoldState b, [])

/-- Handler state: the registry, unregistered-but-still-captured records, and
the pending auto-release timeouts `(button id, due time)`. -/
structure IState where
  buttons : List Button
  graveyard : List Button
  pending : List (String × ℚ)
deriving DecidableEq, Repr

/-- `checkInteractions`: run every registered button through `processButton`,
collecting events and newly scheduled auto-releases. -/
def checkInteractions (st : IState) (positions : List HandPos)
    (innerWidth innerHeight now : ℚ) : IState × List Event :=
  let results := st.buttons.map (fun b => processButton b positions innerWidth innerHeight now)
  ({ st with
      buttons := results.map (fun r => r.1)
      pending := st.pending ++ results.filterMap
        (fun r => r.2.2.map (fun due => (r.1.id, due))) },
   (results.map (fun r => r.2.1)).flatten)

/-- `clearAllInteractions`: drop every hover flag without emitting
`hover:leave`, release pressed buttons (emitting `release`), reset hold
state; pending timeouts are not cancelled. -/
def clearAllInteractions (st : IState) : IState × List Event :=
  let results := st.buttons.map (fun b =>
    let b1 := if b.isHovered then { b with isHovered := false } else b
    let (b2, ev) := if b1.isPressed then releaseButton b1 else (b1, [])
    (resetHoldState b2, ev))
  ({ st with buttons := results.map (fun r => r.1) },
   (results.map (fun r => r.2)).flatten)

/-- `updateHandPositions`: a `null` or empty hand list clears all
interactions; otherwise extract the index-fingertip (landmark 8) of every
hand with at least 21 landmarks and run `checkInteractions`. -/
def extractPositions (hands : List Hand) : List HandPos :=
  hands.filterMap (fun h =>
    if h.landmarks.length ≥ 21 then
      let indexTip := h.landmarks.getD 8 default
      some { x := indexTip.x, y := indexTip.y, z := indexTip.z, gesture := h.gesture }
    else none)

/-- `updateHandPositions` (see `extractPositions`). -/
def updateHandPositions (st : IState) (handResults : Option (List Hand))
    (innerWidth innerHeight now : ℚ) : IState × List Event :=
  match handResults with
  | none => clearAllInteractions st
  | some hands =>
    if hands.length = 0 then clearAllInteractions st
    else checkInteractions st (extractPositions hands) innerWidth innerHeight now

/-- `unregisterButton`: remove the entry from the registry.  The JavaScript
closure of any pending auto-release still holds the record, modelled by moving
it to the graveyard; pending timeouts are not cleared. -/
def unregisterButton (st : IState) (id : String) : IState :=
  { st with
    buttons := st.buttons.filter (fun b => b.id ≠ id)
    graveyard := st.graveyard ++ st.buttons.filter (fun b => b.id = id) }

/-- A due auto-release timeout firing: `releaseButton` runs on the captured
record — the live registry entry when still registered, the graveyard record
otherwise — with no generation or identity check. -/
def fireRelease (st : IState) (id : String) : IState × List Event :=
  match st.buttons.find? (fun b => b.id = id) with
  | some b =>
    let (b', ev) := releaseButton b
    ({ st with
        buttons := st.buttons.map (fun c => if c.id = id then b' else c)
        pending := st.pending.filter (fun p => p.1 ≠ id) }, ev)
  | none =>
    match st.graveyard.find? (fun b => b.id = id) with
    | some b =>
      let (b', ev) := releaseButton b
      ({ st with
          graveyard := st.graveyard.map (fun c => if c.id = id then b' else c)
          pending := st.pending.filter (fun p => p.1 ≠ id) }, ev)
    | none => ({ st with pending := st.pending.filter (fun p => p.1 ≠ id) }, [])

/-! The detection-side frame pipeline (mediapipe-handler.js + the app's
`handleHandDetection`).  `processHandResults` maps an empty detection result
to `null`, and `processFrame` invokes the hand callback only when the result
is non-null, so `updateHandPositions` is never called on a frame whose hand
list is empty. -/

/-- `MediaPipeHandler.processHandResults` restricted to what the interaction
layer consumes: `null` when the landmark list is missing or empty. -/
def processHandResults (hands : Option (List Hand)) : Option (List Hand) :=
  match hands with
  | none => none
  | some hs => if hs.length = 0 then none else some hs

/-- One frame of the integrated pipeline: `processFrame` runs the detector,
and only a non-`null` result reaches `handleHandDetection`, which calls
`updateHandPositions`. -/
def processFrameHands (st : IState) (hands : Option (List Hand))
    (innerWidth innerHeight now : ℚ) : IState × List Event :=
  match processHandResults hands with
  | none => (st, [])
  | some hs => updateHandPositions st (some hs) innerWidth innerHeight now

end Interaction

/-! ## Gesture hold timer

`VRPhotoboothApp.checkPeaceSignGesture` with its constructor constants
`peaceSignDuration = 3000` and the 2000 ms reset `setTimeout` scheduled after
a gesture-triggered capture.  The `setTimeout` is modelled as a pending reset
due time, applied at the start of any step whose `now` has passed it (the
hosting event loop runs due timer callbacks before a later animation frame). -/
namespace GestureTimer

/-- Gesture-capture slice of the app state: `peaceSignStartTime`,
`isCapturingFromGesture`, and the pending 2000 ms reset timeout. -/
structure GState where
  peaceSignStartTime : Option ℚ
  isCapturing : Bool
  pendingReset : Option ℚ
deriving DecidableEq, Repr

/-- Initial state from the constructor. -/
def initial : GState :=
  { peaceSignStartTime := none, isCapturing := false, pendingReset := none }

/-- Events observable from `checkPeaceSignGesture`: the countdown display and
the capture trigger. -/
inductive GEvent where
  | countdown (remaining : ℤ)
  | capture
deriving DecidableEq, Repr

/-- The pending reset callback (`isCapturingFromGesture = false`,
`peaceSignStartTime = null`) applied when due. -/
def applyPendingReset (st : GState) (now : ℚ) : GState :=
  match st.pendingReset with
  | some due =>
    if due ≤ now then
      { peaceSignStartTime := none, isCapturing := false, pendingReset := none }
    else st
  | none => st

/-- `checkPeaceSignGesture` proper, on a state in which any due reset has
already been applied.  `hasPeaceSign` is `hands.some(h => h.gesture === "peace")`
computed by the caller's model below. -/
def checkPeaceSign (st : GState) (hasPeaceSign : Bool) (now : ℚ) :
    GState × List GEvent :=
  if hasPeaceSign && !st.isCapturing then
    match st.peaceSignStartTime with
    | none => ({ st with peaceSignStartTime := some now }, [])
    | some start =>
      let elapsed := now - start
      let remaining := ⌈(3000 - elapsed) / 1000⌉
      if remaining > 0 then (st, [GEvent.countdown remaining])
      else
        ({ st with isCapturing := true, pendingReset := some (now + 2000) },
         [GEvent.capture])
  else
    if st.peaceSignStartTime.isSome && !st.isCapturing then
      ({ st with peaceSignStartTime := none }, [])
    else (st, [])

/-- One frame of the gesture timer: run any due reset callback, compute
`hasPeaceSign` over the frame's hands, then `checkPeaceSignGesture`. -/
def gestureStep (st : GState) (hands : List Interaction.Hand) (now : ℚ) :
    GState × List GEvent :=
  let st := applyPendingReset st now
  checkPeaceSign st (hands.any (fun h => h.gesture = "peace")) now

end GestureTimer

/-! ## Spec-side hover metric (for claim C2)

The spec demands that hover testing use the pointer's destination-surface
normalized position after Viewport-Mapper reconciliation (crop plus
horizontal mirroring), against the target's bounds center divided by the
surface dimensions, z ignored; a hand qualifies iff the Euclidean distance is
below the activation radius (stated here on squared distances, which is
equivalent).  This definition follows the spec's words, to be compared with
the source's `Interaction.calculateDistanceSq`. -/
def spec_hoverQualifies (p : Pt) (scale : VideoScale) (bounds : Interaction.Bounds)
    (surfaceWidth surfaceHeight radius : ℚ) : Bool :=
  match mapPoint p scale with
  | none => false
  | some (destX, destY) =>
    let nx := destX / surfaceWidth
    let ny := destY / surfaceHeight
    let cx := (bounds.left + bounds.width / 2) / surfaceWidth
    let cy := (bounds.top + bounds.height / 2) / surfaceHeight
    decide ((nx - cx) ^ 2 + (ny - cy) ^ 2 < radius ^ 2)

/-! ## Concrete fixtures used by witnesses and counterexamples -/
namespace Interaction

/-- A hand whose 21 landmarks all sit at `p` (so its index fingertip,
landmark 8, is `p`). -/
def handAt (p : Pt) : Hand := { landmarks := List.replicate 21 p, gesture := "point" }

/-- A 100×100 button centered at pixel (400,400) with activation radius 0.05
and a 1000 ms hold. -/
def centerBtn (requireHold : Bool) : Button :=
  registerButton "b" { left := 350, top := 350, width := 100, height := 100 }
    { threshold := 1/20, holdTime := 1000, requireHold := requireHold }

/-- Handler state holding just `centerBtn`. -/
def st0 (requireHold : Bool) : IState :=
  { buttons := [centerBtn requireHold], graveyard := [], pending := [] }

/-- A zero-size button whose center, normalized by an 800×800 window, is the
mirrored crop-reconciled image of the detector point `(3/10, 1/2)` under the
`getVideoScale 1280 720 800 800` mapping. -/
def mirrorBtn : Button :=
  registerButton "b" { left := 6160/9, top := 400, width := 0, height := 0 }
    { threshold := 1/20, holdTime := 1000, requireHold := true }

/-- Handler state holding just `mirrorBtn`. -/
def stMirror : IState := { buttons := [mirrorBtn], graveyard := [], pending := [] }

/-- State of `st0 false` right after an immediate activation frame at t=0:
hovered, pressed, auto-release pending at t=200. -/
def pressedSt : IState :=
  { buttons := [{ centerBtn false with isHovered := true, isPressed := true }],
    graveyard := [], pending := [("b", 200)] }

/-- State of `pressedSt` after a frame in which the hand moved out of range:
hover lost, yet still pressed, auto-release still pending. -/
def pressedUnhoveredSt : IState :=
  { buttons := [{ centerBtn false with isHovered := false, isPressed := true }],
    graveyard := [], pending := [("b", 200)] }

/-- `centerBtn true` mid-hold: hovered since t=0 with the hold started then. -/
def holdBtn : Button :=
  { centerBtn true with isHovered := true, holdStartTime := some 0 }

/-- A hand observation labelled with the peace gesture (the gesture timer
only inspects the label). -/
def peaceHand : Hand := { landmarks := [], gesture := "peace" }

end Interaction

/-! ## Helper lemmas -/

/-- The source's if/else chain agrees with the spec's ordered rule table on
every combination of the five finger booleans. -/
lemma classifyFingers_eq_firstMatch :
    ∀ t i m r p : Bool, classifyFingers t i m r p =
      firstMatch specRules { thumb := t, index := i, middle := m, ring := r, pinky := p } := by
  decide

namespace Interaction

/-- Extraction of the pointer position from a single all-at-`p` hand. -/
lemma extractPositions_handAt (p : Pt) :
    extractPositions [handAt p] = [{ x := p.x, y := p.y, z := p.z, gesture := "point" }] := by
  simp [extractPositions, handAt]

/-- The closest-hand scan finds some hand exactly when some hand's squared
distance is below the squared threshold. -/
lemma findClosest_isSome_iff (positions : List HandPos) (bounds : Bounds) (iw ih t : ℚ) :
    (findClosest positions bounds iw ih t).isSome ↔
      ∃ h ∈ positions, calculateDistanceSq h bounds iw ih < t ^ 2 := by
  unfold findClosest
  suffices H : ∀ acc : Option (HandPos × ℚ),
      (positions.foldl
        (fun acc hand =>
          let dSq := calculateDistanceSq hand bounds iw ih
          if dSq < t ^ 2 then
            match acc with
            | none => some (hand, dSq)
            | some (_, bestSq) => if dSq < bestSq then some (hand, dSq) else acc
          else acc) acc).isSome ↔
      (acc.isSome ∨ ∃ h ∈ positions, calculateDistanceSq h bounds iw ih < t ^ 2) by
    simpa using H none
  induction positions with
  | nil => intro acc; simp
  | cons hd tl ih2 =>
    intro acc
    simp only [List.foldl_cons]
    rw [ih2]
    by_cases h : calculateDistanceSq hd bounds iw ih < t ^ 2 <;>
      cases acc <;> simp [h]
    split <;> simp

/-- After a frame, a button's hover flag equals the frame's hover
computation. -/
lemma processButton_fst_isHovered (b : Button) (positions : List HandPos) (iw ih now : ℚ) :
    (processButton b positions iw ih now).1.isHovered =
      (findClosest positions b.bounds iw ih b.options.threshold).isSome := by
  unfold processButton
  cases hc : findClosest positions b.bounds iw ih b.options.threshold <;>
    simp [handleHoverState, handlePressState, activateButton, resetHoldState, hc] <;>
    cases hh : b.isHovered <;> simp [hh] <;> split_ifs <;> simp_all

end Interaction

/-! ## Claim theorems -/

/-- C1: For every hand observation whose landmark list has exactly 21 points,
`recognizeGesture` returns the symbol of the first matching rule evaluated in
the fixed priority order point, peace, open, fist, thumbs_up — a finger
counting as extended iff its tip's y is strictly less than its pip's y
(thumb: tip 4 against ip 3) — and returns "unknown" when no rule matches,
i.e. it agrees with the spec's ordered decision table `specClassify`. -/
theorem C1_classify_priority_order (l : List Pt) (h : l.length = 21) :
    recognizeGesture (some l) = specClassify l := by
  simp only [recognizeGesture, h, specClassify]
  norm_num
  rw [classifyFingers_eq_firstMatch]

/-- Witness for C1 at a concrete 21-point hand (all landmarks equal, every
finger retracted: both sides classify it as "fist"). -/
theorem C1_classify_priority_order_witness :
    (List.replicate 21 (⟨0, 0, 0⟩ : Pt)).length = 21 ∧
    recognizeGesture (some (List.replicate 21 (⟨0, 0, 0⟩ : Pt))) =
      specClassify (List.replicate 21 (⟨0, 0, 0⟩ : Pt)) :=
  ⟨by simp, C1_classify_priority_order _ (by simp)⟩

/-- C8: For every input whose landmark list is absent or has a length other
than exactly 21, `recognizeGesture` returns "unknown" (and, being a total
function, raises no exception). -/
theorem C8_malformed_landmarks_unknown (landmarks : Option (List Pt))
    (h : ∀ l, landmarks = some l → l.length ≠ 21) :
    recognizeGesture landmarks = "unknown" := by
  cases landmarks with
  | none => rfl
  | some l => simp [recognizeGesture, h l rfl]

/-- Witness for C8 at hands with 20 and 22 landmarks and at a missing list. -/
theorem C8_malformed_landmarks_unknown_witness :
    (List.replicate 20 (⟨0, 0, 0⟩ : Pt)).length ≠ 21 ∧
    recognizeGesture (some (List.replicate 20 (⟨0, 0, 0⟩ : Pt))) = "unknown" ∧
    recognizeGesture (some (List.replicate 22 (⟨0, 0, 0⟩ : Pt))) = "unknown" ∧
    recognizeGesture none = "unknown" :=
  ⟨by simp,
   C8_malformed_landmarks_unknown _ (fun l hl => by
     have h2 := Option.some.inj hl; subst h2; simp),
   C8_malformed_landmarks_unknown _ (fun l hl => by
     have h2 := Option.some.inj hl; subst h2; simp),
   C8_malformed_landmarks_unknown none (fun l hl => by cases hl)⟩

/-- C6: `getVideoScale` returns the identity crop whenever the aspect ratios
differ by at most 0.01; when the source is relatively wider it crops
symmetric left/right margins with `cropWidth = destAspect / sourceAspect`,
`cropX = (1 - cropWidth)/2`, `cropHeight = 1`, `cropY = 0`; when relatively
taller, the dual crop; and concretely `getVideoScale 1280 720 800 800` yields
`cropY = 0`, `cropHeight = 1`, `cropWidth = 9/16 = 0.5625`,
`cropX = 7/32 = 0.21875 ≈ 0.2188`. -/
theorem C6_computeMapping_crop :
    (∀ vw vh cw ch : ℚ, |vw / vh - cw / ch| ≤ 1/100 →
      getVideoScale vw vh cw ch =
        { width := cw, height := ch, offsetX := 0, offsetY := 0,
          cropX := 0, cropY := 0, cropWidth := 1, cropHeight := 1 }) ∧
    (∀ vw vh cw ch : ℚ, 0 < vw →
      1/100 < |vw / vh - cw / ch| → cw / ch < vw / vh →
      (getVideoScale vw vh cw ch).cropWidth = (cw / ch) / (vw / vh) ∧
      (getVideoScale vw vh cw ch).cropX = (1 - (cw / ch) / (vw / vh)) / 2 ∧
      (getVideoScale vw vh cw ch).cropHeight = 1 ∧
      (getVideoScale vw vh cw ch).cropY = 0) ∧
    (∀ vw vh cw ch : ℚ, 0 < vh →
      1/100 < |vw / vh - cw / ch| → vw / vh < cw / ch →
      (getVideoScale vw vh cw ch).cropHeight = (vw / vh) / (cw / ch) ∧
      (getVideoScale vw vh cw ch).cropY = (1 - (vw / vh) / (cw / ch)) / 2 ∧
      (getVideoScale vw vh cw ch).cropWidth = 1 ∧
      (getVideoScale vw vh cw ch).cropX = 0) ∧
    getVideoScale 1280 720 800 800 =
      { width := 800, height := 800, offsetX := 0, offsetY := 0,
        cropX := 7/32, cropY := 0, cropWidth := 9/16, cropHeight := 1 } := by
  refine ⟨?_, ?_, ?_, ?_⟩
  · intro vw vh cw ch h
    unfold getVideoScale
    rw [if_neg (not_lt.mpr h)]
  · intro vw vh cw ch hvw hd hlt
    have hvw' : vw ≠ 0 := ne_of_gt hvw
    unfold getVideoScale
    rw [if_pos hd, if_pos hlt]
    refine ⟨?_, ?_, rfl, rfl⟩
    · dsimp only
      simp only [div_div_eq_mul_div]
      rw [sub_div, div_self hvw']
      ring
    · dsimp only
      simp only [div_div_eq_mul_div]
      rw [sub_div, div_self hvw']
      ring
  · intro vw vh cw ch hvh hd hlt
    have hvh' : vh ≠ 0 := ne_of_gt hvh
    unfold getVideoScale
    rw [if_pos hd, if_neg (not_lt.mpr (le_of_lt hlt))]
    refine ⟨?_, ?_, rfl, rfl⟩
    · dsimp only
      simp only [div_div_eq_mul_div]
      rw [sub_div, div_self hvh']
      ring
    · dsimp only
      simp only [div_div_eq_mul_div]
      rw [sub_div, div_self hvh']
      ring
  · norm_num [getVideoScale, VideoScale.mk.injEq, abs_of_pos, abs_of_neg]

/-- Witness for C6: the matched-aspect, wider-source and taller-source
branches instantiated at concrete dimensions. -/
theorem C6_computeMapping_crop_witness :
    (getVideoScale 100 100 100 100 =
      { width := 100, height := 100, offsetX := 0, offsetY := 0,
        cropX := 0, cropY := 0, cropWidth := 1, cropHeight := 1 }) ∧
    ((getVideoScale 1280 720 800 800).cropWidth = ((800:ℚ)/800) / ((1280:ℚ)/720) ∧
     (getVideoScale 1280 720 800 800).cropX = (1 - ((800:ℚ)/800) / ((1280:ℚ)/720)) / 2 ∧
     (getVideoScale 1280 720 800 800).cropHeight = 1 ∧
     (getVideoScale 1280 720 800 800).cropY = 0) ∧
    ((getVideoScale 720 1280 800 800).cropHeight = ((720:ℚ)/1280) / ((800:ℚ)/800) ∧
     (getVideoScale 720 1280 800 800).cropY = (1 - ((720:ℚ)/1280) / ((800:ℚ)/800)) / 2 ∧
     (getVideoScale 720 1280 800 800).cropWidth = 1 ∧
     (getVideoScale 720 1280 800 800).cropX = 0) :=
  ⟨C6_computeMapping_crop.1 100 100 100 100 (by norm_num),
   C6_computeMapping_crop.2.1 1280 720 800 800 (by norm_num)
     (by norm_num [abs_of_pos]) (by norm_num),
   C6_computeMapping_crop.2.2.1 720 1280 800 800 (by norm_num)
     (by norm_num [abs_of_neg]) (by norm_num)⟩

/-- C7: for every landmark point and mapping (whose offsets are zero, as
every `getVideoScale` result's are), `mapPoint` returns `none` exactly when
`nx = (p.x-cropX)/cropWidth` or `ny = (p.y-cropY)/cropHeight` falls outside
`[0,1]`, and otherwise returns the horizontally mirrored destination
coordinates `((1-nx)·outputWidth, ny·outputHeight)` — the mirroring applied
unconditionally to every visible point. -/
theorem C7_mapPoint_visibility (p : Pt) (s : VideoScale)
    (hx : s.offsetX = 0) (hy : s.offsetY = 0) :
    (mapPoint p s = none ↔
      ((p.x - s.cropX) / s.cropWidth < 0 ∨ 1 < (p.x - s.cropX) / s.cropWidth ∨
       (p.y - s.cropY) / s.cropHeight < 0 ∨ 1 < (p.y - s.cropY) / s.cropHeight)) ∧
    (0 ≤ (p.x - s.cropX) / s.cropWidth → (p.x - s.cropX) / s.cropWidth ≤ 1 →
     0 ≤ (p.y - s.cropY) / s.cropHeight → (p.y - s.cropY) / s.cropHeight ≤ 1 →
     mapPoint p s =
       some ((1 - (p.x - s.cropX) / s.cropWidth) * s.width,
             (p.y - s.cropY) / s.cropHeight * s.height)) := by
  unfold mapPoint
  dsimp only
  split_ifs with h
  · refine ⟨iff_of_true rfl (by simpa using h), ?_⟩
    intro h1 h2 h3 h4
    rcases h with h | h | h | h
    · exact absurd h (not_lt.mpr h1)
    · exact absurd h (not_lt.mpr h2)
    · exact absurd h (not_lt.mpr h3)
    · exact absurd h (not_lt.mpr h4)
  · refine ⟨iff_of_false (by simp) (by simpa using h), ?_⟩
    intro _ _ _ _
    rw [hx, hy, add_zero, add_zero]

/-- Witness for C7: the landmark with `x = 0.05` under the
`getVideoScale 1280 720 800 800` mapping lies outside the crop window and
maps to `none`. -/
theorem C7_mapPoint_visibility_witness :
    (getVideoScale 1280 720 800 800).offsetX = 0 ∧
    (getVideoScale 1280 720 800 800).offsetY = 0 ∧
    mapPoint ⟨1/20, 1/2, 0⟩ (getVideoScale 1280 720 800 800) = none :=
  ⟨by norm_num [getVideoScale, abs_of_pos],
   by norm_num [getVideoScale, abs_of_pos],
   (C7_mapPoint_visibility ⟨1/20, 1/2, 0⟩ (getVideoScale 1280 720 800 800)
      (by norm_num [getVideoScale, abs_of_pos])
      (by norm_num [getVideoScale, abs_of_pos])).1.mpr
     (by norm_num [getVideoScale, abs_of_pos])⟩

/-- C2 counterexample: under the `getVideoScale 1280 720 800 800` mapping on
an 800×800 window, the detector point `(3/10, 1/2)` maps (crop + mirror) onto
`mirrorBtn`'s center, so the spec's reconciled metric qualifies the hand —
yet the code's frame update, which measures from the raw detector position,
leaves the button unhovered and emits nothing. -/
theorem C2_counterexample :
    spec_hoverQualifies ⟨3/10, 1/2, 0⟩ (getVideoScale 1280 720 800 800)
      Interaction.mirrorBtn.bounds 800 800 (1/20) = true ∧
    Interaction.updateHandPositions Interaction.stMirror
        (some [Interaction.handAt ⟨3/10, 1/2, 0⟩]) 800 800 0 =
      (Interaction.stMirror, []) := by
  constructor
  · norm_num [spec_hoverQualifies, mapPoint, getVideoScale, Interaction.mirrorBtn,
      Interaction.registerButton, abs_of_pos]
  · norm_num [Interaction.updateHandPositions, Interaction.checkInteractions,
      Interaction.processButton, Interaction.extractPositions_handAt,
      Interaction.stMirror, Interaction.mirrorBtn, Interaction.registerButton,
      Interaction.findClosest, Interaction.calculateDistanceSq,
      Interaction.handleHoverState, Interaction.handlePressState,
      Interaction.activateButton, Interaction.resetHoldState,
      List.filterMap_cons, Interaction.Button.mk.injEq, Interaction.IState.mk.injEq]

/-- C2 amended: the hover test uses the Euclidean distance in normalized
screen space between the index-fingertip pointer's RAW detector-space
position — no Viewport-Mapper reconciliation, crop or mirroring is applied —
and the target's bounds center divided by the window dimensions, z ignored; a
hand qualifies iff this distance is strictly below the activation radius. -/
theorem C2_raw_pointer_distance (b : Interaction.Button)
    (positions : List Interaction.HandPos) (iw ih now : ℚ) :
    (Interaction.processButton b positions iw ih now).1.isHovered = true ↔
      ∃ h ∈ positions,
        (h.x - (b.bounds.left + b.bounds.width / 2) / iw) ^ 2 +
          (h.y - (b.bounds.top + b.bounds.height / 2) / ih) ^ 2 <
        b.options.threshold ^ 2 := by
  rw [Interaction.processButton_fst_isHovered]
  simpa [Interaction.calculateDistanceSq, pow_two] using
    Interaction.findClosest_isSome_iff positions b.bounds iw ih b.options.threshold

/-- C3 counterexample: after a frame that hovers the button, a frame whose
hand-observation list is empty leaves the handler state untouched and emits
no events at all — the hover state is not cleared and no `hover:leave` fires,
because `processHandResults` maps the empty list to `null` and the hand
callback is skipped. -/
theorem C3_counterexample :
    ((Interaction.processFrameHands (Interaction.st0 true)
        (some [Interaction.handAt ⟨1/2, 1/2, 0⟩]) 800 800 0).1.buttons.map
        Interaction.Button.isHovered = [true]) ∧
    Interaction.processFrameHands
        (Interaction.processFrameHands (Interaction.st0 true)
          (some [Interaction.handAt ⟨1/2, 1/2, 0⟩]) 800 800 0).1
        (some []) 800 800 16 =
      ((Interaction.processFrameHands (Interaction.st0 true)
          (some [Interaction.handAt ⟨1/2, 1/2, 0⟩]) 800 800 0).1, []) := by
  have h1 : Interaction.processFrameHands (Interaction.st0 true)
      (some [Interaction.handAt ⟨1/2, 1/2, 0⟩]) 800 800 0 =
      ({ buttons := [{ Interaction.centerBtn true with isHovered := true, holdStartTime := some 0 }],
         graveyard := [], pending := [] },
       [Interaction.Event.hoverEnter "b"]) := by
    norm_num [Interaction.processFrameHands, Interaction.processHandResults,
      Interaction.updateHandPositions, Interaction.checkInteractions,
      Interaction.processButton, Interaction.extractPositions_handAt,
      Interaction.st0, Interaction.centerBtn, Interaction.registerButton,
      Interaction.findClosest, Interaction.calculateDistanceSq,
      Interaction.handleHoverState, Interaction.handlePressState,
      Interaction.activateButton, Interaction.resetHoldState,
      List.filterMap_cons, Interaction.Button.mk.injEq, Interaction.IState.mk.injEq]
  rw [h1]
  exact ⟨by simp, rfl⟩

/-- C3 amended: a frame whose hand list is empty (or missing) never reaches
the interaction handler — `processFrameHands` returns the state unchanged
with no events — so hovered targets stay hovered across empty frames.  The
synchronous clearing path `clearAllInteractions` (reached only when
`updateHandPositions` is invoked directly with a null/empty list) does clear
every hover flag and hold state in that same call, but emits only `release`
events for pressed targets, never `hover:leave`. -/
theorem C3_empty_frame_behavior (st : Interaction.IState) (iw ih now : ℚ)
    (hands : Option (List Interaction.Hand))
    (h : hands = none ∨ hands = some []) :
    Interaction.processFrameHands st hands iw ih now = (st, []) ∧
    (∀ b ∈ (Interaction.clearAllInteractions st).1.buttons,
        b.isHovered = false ∧ b.holdStartTime = none ∧ b.holdProgress = 0) ∧
    (∀ e ∈ (Interaction.clearAllInteractions st).2,
        ∃ id, e = Interaction.Event.release id) := by
  refine ⟨?_, ?_, ?_⟩
  · rcases h with rfl | rfl <;> rfl
  · intro b hb
    simp only [Interaction.clearAllInteractions, List.map_map, List.mem_map] at hb
    obtain ⟨a, ha, rfl⟩ := hb
    by_cases hh : a.isHovered <;> by_cases hp : a.isPressed <;>
      simp [hh, hp, Interaction.releaseButton, Interaction.resetHoldState]
  · intro e he
    simp only [Interaction.clearAllInteractions, List.map_map, List.mem_flatten,
      List.mem_map] at he
    obtain ⟨l, ⟨a, ha, rfl⟩, hel⟩ := he
    by_cases hh : a.isHovered <;> by_cases hp : a.isPressed <;>
      simp [hh, hp, Interaction.releaseButton, Interaction.resetHoldState] at hel <;>
      exact ⟨a.id, hel⟩

/-- Witness for C3: the amended behavior at a concrete state and an empty
frame. -/
theorem C3_empty_frame_behavior_witness :
    Interaction.processFrameHands (Interaction.st0 true) (some []) 800 800 16 =
      (Interaction.st0 true, []) ∧
    (∀ b ∈ (Interaction.clearAllInteractions (Interaction.st0 true)).1.buttons,
        b.isHovered = false ∧ b.holdStartTime = none ∧ b.holdProgress = 0) ∧
    (∀ e ∈ (Interaction.clearAllInteractions (Interaction.st0 true)).2,
        ∃ id, e = Interaction.Event.release id) :=
  C3_empty_frame_behavior (Interaction.st0 true) 800 800 16 (some []) (Or.inr rfl)

/-- C9 counterexample: with `requireHold = false`, a qualifying frame at t=0
presses the button; the hand then stays present but out of range for the
frames at t=16 and t=32, so the button is hovered in neither of the two most
recent frames, yet `isPressed` is still true at t=32 (the 200 ms auto-release
has not fired) — refuting the level-invariant form of the claim. -/
theorem C9_counterexample :
    ((Interaction.updateHandPositions
        (Interaction.updateHandPositions
          (Interaction.updateHandPositions (Interaction.st0 false)
            (some [Interaction.handAt ⟨1/2, 1/2, 0⟩]) 800 800 0).1
          (some [Interaction.handAt ⟨0, 0, 0⟩]) 800 800 16).1
        (some [Interaction.handAt ⟨0, 0, 0⟩]) 800 800 32).1.buttons.map
        Interaction.Button.isPressed = [true]) ∧
    ((Interaction.updateHandPositions
        (Interaction.updateHandPositions (Interaction.st0 false)
          (some [Interaction.handAt ⟨1/2, 1/2, 0⟩]) 800 800 0).1
        (some [Interaction.handAt ⟨0, 0, 0⟩]) 800 800 16).1.buttons.map
        Interaction.Button.isHovered = [false]) ∧
    ((Interaction.updateHandPositions
        (Interaction.updateHandPositions
          (Interaction.updateHandPositions (Interaction.st0 false)
            (some [Interaction.handAt ⟨1/2, 1/2, 0⟩]) 800 800 0).1
          (some [Interaction.handAt ⟨0, 0, 0⟩]) 800 800 16).1
        (some [Interaction.handAt ⟨0, 0, 0⟩]) 800 800 32).1.buttons.map
        Interaction.Button.isHovered = [false]) := by
  have h1 : Interaction.updateHandPositions (Interaction.st0 false)
      (some [Interaction.handAt ⟨1/2, 1/2, 0⟩]) 800 800 0 =
      (Interaction.pressedSt,
       [Interaction.Event.hoverEnter "b", Interaction.Event.press "b"]) := by
    norm_num [Interaction.updateHandPositions, Interaction.checkInteractions,
      Interaction.processButton, Interaction.extractPositions_handAt,
      Interaction.st0, Interaction.pressedSt, Interaction.centerBtn,
      Interaction.registerButton, Interaction.findClosest,
      Interaction.calculateDistanceSq, Interaction.handleHoverState,
      Interaction.handlePressState, Interaction.activateButton,
      Interaction.resetHoldState, List.filterMap_cons,
      Interaction.Button.mk.injEq, Interaction.IState.mk.injEq]
  have h2 : Interaction.updateHandPositions Interaction.pressedSt
      (some [Interaction.handAt ⟨0, 0, 0⟩]) 800 800 16 =
      (Interaction.pressedUnhoveredSt, [Interaction.Event.hoverLeave "b"]) := by
    norm_num [Interaction.updateHandPositions, Interaction.checkInteractions,
      Interaction.processButton, Interaction.extractPositions_handAt,
      Interaction.pressedSt, Interaction.pressedUnhoveredSt, Interaction.centerBtn,
      Interaction.registerButton, Interaction.findClosest,
      Interaction.calculateDistanceSq, Interaction.handleHoverState,
      Interaction.handlePressState, Interaction.activateButton,
      Interaction.resetHoldState, List.filterMap_cons,
      Interaction.Button.mk.injEq, Interaction.IState.mk.injEq]
  have h3 : Interaction.updateHandPositions Interaction.pressedUnhoveredSt
      (some [Interaction.handAt ⟨0, 0, 0⟩]) 800 800 32 =
      (Interaction.pressedUnhoveredSt, []) := by
    norm_num [Interaction.updateHandPositions, Interaction.checkInteractions,
      Interaction.processButton, Interaction.extractPositions_handAt,
      Interaction.pressedUnhoveredSt, Interaction.centerBtn,
      Interaction.registerButton, Interaction.findClosest,
      Interaction.calculateDistanceSq, Interaction.handleHoverState,
      Interaction.handlePressState, Interaction.activateButton,
      Interaction.resetHoldState, List.filterMap_cons,
      Interaction.Button.mk.injEq, Interaction.IState.mk.injEq]
  rw [h1]
  simp only
  rw [h2]
  simp only
  rw [h3]
  simp [Interaction.pressedUnhoveredSt, Interaction.centerBtn, Interaction.registerButton]

/-- C9 amended: a target only *transitions* from not-pressed to pressed in a
frame in which it is hovered (some hand within the activation radius in that
same frame); once pressed, the flag can outlast hover, persisting until the
200 ms auto-release or a clearing call. -/
theorem C9_press_transition_requires_hover (b : Interaction.Button)
    (positions : List Interaction.HandPos) (iw ih now : ℚ)
    (hnew : (Interaction.processButton b positions iw ih now).1.isPressed = true)
    (hold : b.isPressed = false) :
    (Interaction.processButton b positions iw ih now).1.isHovered = true := by
  rw [Interaction.processButton_fst_isHovered]
  by_contra hc
  have hnone : Interaction.findClosest positions b.bounds iw ih
      b.options.threshold = none := by
    cases h : Interaction.findClosest positions b.bounds iw ih b.options.threshold
    · rfl
    · rw [h] at hc; simp at hc
  unfold Interaction.processButton at hnew
  cases hh : b.isHovered <;>
    simp [hnone, hh, Interaction.handleHoverState, Interaction.handlePressState,
      Interaction.resetHoldState, hold] at hnew

/-- Witness for C9's amended theorem: a fresh button pressed by a qualifying
frame is hovered in that same frame. -/
theorem C9_press_transition_requires_hover_witness :
    (Interaction.processButton (Interaction.centerBtn false)
       [⟨1/2, 1/2, 0, "point"⟩] 800 800 0).1.isPressed = true ∧
    (Interaction.centerBtn false).isPressed = false ∧
    (Interaction.processButton (Interaction.centerBtn false)
       [⟨1/2, 1/2, 0, "point"⟩] 800 800 0).1.isHovered = true :=
  ⟨by norm_num [Interaction.processButton, Interaction.centerBtn,
      Interaction.registerButton, Interaction.findClosest,
      Interaction.calculateDistanceSq, Interaction.handleHoverState,
      Interaction.handlePressState, Interaction.activateButton,
      Interaction.resetHoldState],
   rfl,
   C9_press_transition_requires_hover _ _ 800 800 0
     (by norm_num [Interaction.processButton, Interaction.centerBtn,
        Interaction.registerButton, Interaction.findClosest,
        Interaction.calculateDistanceSq, Interaction.handleHoverState,
        Interaction.handlePressState, Interaction.activateButton,
        Interaction.resetHoldState])
     rfl⟩

/-- C10 counterexample: after a press at t=0 the auto-release for target "b"
is pending at t=200; unregistering "b" leaves that pending callback in place
(pending list unchanged, registry emptied), and when it fires it still emits
a `release` event for the unregistered target instead of being silently
discarded. -/
theorem C10_counterexample :
    (Interaction.unregisterButton Interaction.pressedSt "b").pending = [("b", 200)] ∧
    (Interaction.unregisterButton Interaction.pressedSt "b").buttons = [] ∧
    (Interaction.fireRelease
      (Interaction.unregisterButton Interaction.pressedSt "b") "b").2 =
      [Interaction.Event.release "b"] := by
  refine ⟨rfl, ?_, ?_⟩
  · simp [Interaction.unregisterButton, Interaction.pressedSt, Interaction.centerBtn,
      Interaction.registerButton]
  · simp [Interaction.fireRelease, Interaction.unregisterButton, Interaction.pressedSt,
      Interaction.centerBtn, Interaction.registerButton, Interaction.releaseButton,
      Interaction.resetHoldState]

/-- C10 amended: the delayed auto-release callback captures the target record
directly and carries no identity/generation token, so when it fires after its
target was unregistered it still runs `releaseButton` on the captured record
and emits a `release` event for the dead target whenever that record was
still pressed; and `unregisterButton` never clears pending delayed callbacks. -/
theorem C10_stale_release_not_discarded (st : Interaction.IState) (id : String)
    (b : Interaction.Button)
    (hb : st.buttons.find? (fun c => c.id = id) = none)
    (hg : st.graveyard.find? (fun c => c.id = id) = some b)
    (hp : b.isPressed = true) :
    (Interaction.fireRelease st id).2 = [Interaction.Event.release id] ∧
    ∀ st2 id2, (Interaction.unregisterButton st2 id2).pending = st2.pending := by
  constructor
  · have hid : b.id = id := by simpa using List.find?_some hg
    unfold Interaction.fireRelease
    rw [hb, hg]
    simp [Interaction.releaseButton, hp, hid, Interaction.resetHoldState]
  · intro st2 id2
    rfl

/-- Witness for C10's amended theorem: the unregistered, still-pressed target
"b" receives a `release` event when its stale callback fires. -/
theorem C10_stale_release_not_discarded_witness :
    ((Interaction.unregisterButton Interaction.pressedSt "b").buttons.find?
      (fun c => c.id = "b") = none) ∧
    ((Interaction.unregisterButton Interaction.pressedSt "b").graveyard.find?
      (fun c => c.id = "b") =
      some { Interaction.centerBtn false with isHovered := true, isPressed := true }) ∧
    ({ Interaction.centerBtn false with isHovered := true, isPressed := true } :
      Interaction.Button).isPressed = true ∧
    (Interaction.fireRelease
      (Interaction.unregisterButton Interaction.pressedSt "b") "b").2 =
      [Interaction.Event.release "b"] ∧
    (∀ st2 id2, (Interaction.unregisterButton st2 id2).pending = st2.pending) := by
  have h1 : (Interaction.unregisterButton Interaction.pressedSt "b").buttons.find?
      (fun c => c.id = "b") = none := by
    simp [Interaction.unregisterButton, Interaction.pressedSt, Interaction.centerBtn,
      Interaction.registerButton]
  have h2 : (Interaction.unregisterButton Interaction.pressedSt "b").graveyard.find?
      (fun c => c.id = "b") =
      some { Interaction.centerBtn false with isHovered := true, isPressed := true } := by
    simp [Interaction.unregisterButton, Interaction.pressedSt, Interaction.centerBtn,
      Interaction.registerButton]
  have H := C10_stale_release_not_discarded _ "b" _ h1 h2 rfl
  exact ⟨h1, h2, rfl, H.1, H.2⟩

/-- C5: for a target with `requireHold = true` and positive hold duration, in
a frame where some hand qualifies: `holdStartTime` is set to the current
timestamp on the first hovered frame and preserved afterwards;
`holdProgress` is recomputed as `clamp((now - holdStartedAt)/holdTime, 0, 1)`;
the press fires exactly when progress reaches 1 while not already pressed,
and firing sets the pressed flag (blocking refires); in a frame with no
qualifying hand, `holdStartTime`/`holdProgress` reset to `none`/0, so a later
hover restarts counting from zero. -/
theorem C5_hold_semantics (b : Interaction.Button)
    (positions : List Interaction.HandPos) (iw ih now : ℚ)
    (hreq : b.options.requireHold = true) (hht : 0 < b.options.holdTime) :
    ((Interaction.findClosest positions b.bounds iw ih b.options.threshold).isSome →
      ((b.holdStartTime = none →
          (Interaction.processButton b positions iw ih now).1.holdStartTime = some now) ∧
       (∀ s, b.holdStartTime = some s → s ≤ now →
          (Interaction.processButton b positions iw ih now).1.holdStartTime = some s ∧
          (Interaction.processButton b positions iw ih now).1.holdProgress =
            max 0 (min ((now - s) / b.options.holdTime) 1)) ∧
       (Interaction.Event.press b.id ∈ (Interaction.processButton b positions iw ih now).2.1 ↔
          (b.isPressed = false ∧ 1 ≤ (now - b.holdStartTime.getD now) / b.options.holdTime)) ∧
       (Interaction.Event.press b.id ∈ (Interaction.processButton b positions iw ih now).2.1 →
          (Interaction.processButton b positions iw ih now).1.isPressed = true))) ∧
    ((Interaction.findClosest positions b.bounds iw ih b.options.threshold) = none →
      (Interaction.processButton b positions iw ih now).1.holdStartTime = none ∧
      (Interaction.processButton b positions iw ih now).1.holdProgress = 0) := by
  constructor
  · intro hsome
    obtain ⟨cl, hcl⟩ := Option.isSome_iff_exists.mp hsome
    unfold Interaction.processButton
    rw [hcl]
    refine ⟨?_, ?_, ?_, ?_⟩
    · intro hstart
      cases hh : b.isHovered <;>
        simp [Interaction.handleHoverState, Interaction.handlePressState,
          Interaction.activateButton, hh, hstart, hreq] <;>
        split_ifs <;> simp [Interaction.activateButton]
    · intro s hstart hs
      have h0 : 0 ≤ (now - s) / b.options.holdTime :=
        div_nonneg (by linarith) hht.le
      rw [max_eq_right (le_min h0 zero_le_one)]
      cases hh : b.isHovered <;>
        simp [Interaction.handleHoverState, Interaction.handlePressState,
          Interaction.activateButton, hh, hstart, hreq] <;>
        split_ifs <;> simp [Interaction.activateButton]
    · cases hh : b.isHovered <;> cases hstart : b.holdStartTime <;>
        simp [Interaction.handleHoverState, Interaction.handlePressState,
          Interaction.activateButton, hh, hstart, hreq] <;>
        split_ifs with hif <;>
        simp_all [le_min_iff] <;>
        (intro hp; by_contra hx; rw [not_lt] at hx; exact absurd hp (by simp [hif hx]))
    · cases hh : b.isHovered <;> cases hstart : b.holdStartTime <;>
        simp [Interaction.handleHoverState, Interaction.handlePressState,
          Interaction.activateButton, hh, hstart, hreq] <;>
        split_ifs with hif <;>
        simp_all
  · intro hnone
    unfold Interaction.processButton
    rw [hnone]
    cases hh : b.isHovered <;>
      simp [Interaction.handleHoverState, Interaction.handlePressState,
        Interaction.resetHoldState, hh]

/-- Witness for C5: a hovered `requireHold` button whose hold started at t=0,
seen at t=1000 with `holdTime = 1000`: the start time is preserved, the
progress is the clamped ratio (here 1), and the press fires. -/
theorem C5_hold_semantics_witness :
    Interaction.holdBtn.options.requireHold = true ∧
    (0:ℚ) < Interaction.holdBtn.options.holdTime ∧
    (Interaction.findClosest [⟨1/2, 1/2, 0, "point"⟩] Interaction.holdBtn.bounds 800 800
      Interaction.holdBtn.options.threshold).isSome ∧
    (Interaction.processButton Interaction.holdBtn [⟨1/2, 1/2, 0, "point"⟩]
      800 800 1000).1.holdStartTime = some 0 ∧
    (Interaction.processButton Interaction.holdBtn [⟨1/2, 1/2, 0, "point"⟩]
      800 800 1000).1.holdProgress =
      max 0 (min ((1000 - 0) / Interaction.holdBtn.options.holdTime) 1) ∧
    Interaction.Event.press Interaction.holdBtn.id ∈
      (Interaction.processButton Interaction.holdBtn [⟨1/2, 1/2, 0, "point"⟩]
        800 800 1000).2.1 := by
  have hreq : Interaction.holdBtn.options.requireHold = true := rfl
  have hht : (0:ℚ) < Interaction.holdBtn.options.holdTime := by
    norm_num [Interaction.holdBtn, Interaction.centerBtn, Interaction.registerButton]
  have hsome : (Interaction.findClosest [⟨1/2, 1/2, 0, "point"⟩]
      Interaction.holdBtn.bounds 800 800 Interaction.holdBtn.options.threshold).isSome := by
    norm_num [Interaction.findClosest, Interaction.calculateDistanceSq,
      Interaction.holdBtn, Interaction.centerBtn, Interaction.registerButton]
  have H := (C5_hold_semantics Interaction.holdBtn [⟨1/2, 1/2, 0, "point"⟩]
    800 800 1000 hreq hht).1 hsome
  refine ⟨hreq, hht, hsome, (H.2.1 0 rfl (by norm_num)).1, (H.2.1 0 rfl (by norm_num)).2, ?_⟩
  exact (H.2.2.1).mpr ⟨rfl, by norm_num [Interaction.holdBtn, Interaction.centerBtn,
    Interaction.registerButton]⟩

/-- C4: gesture hold timer with `durationMs = 3000`, `cooldownMs = 2000`:
every countdown value emitted equals `ceil((3000 - elapsed)/1000)` and is
only emitted while the watched symbol is sustained with `elapsed < 3000`;
removing the symbol before firing returns the timer to idle without firing;
once `elapsed ≥ 3000` with the symbol present the capture fires (exactly
once: the capturing flag blocks everything until the reset scheduled 2000 ms
later), and while the capturing flag is set frames change nothing and emit
nothing, so the symbol is ignored for the 2000 ms cooldown even if
continuously present. -/
theorem C4_gesture_timer (st : GestureTimer.GState) (hands : List Interaction.Hand) (now : ℚ) :
    (∀ n, GestureTimer.GEvent.countdown n ∈ (GestureTimer.gestureStep st hands now).2 →
        ∃ s, (GestureTimer.applyPendingReset st now).peaceSignStartTime = some s ∧
          (GestureTimer.applyPendingReset st now).isCapturing = false ∧
          (hands.any (fun h => h.gesture = "peace")) = true ∧
          now - s < 3000 ∧ n = ⌈(3000 - (now - s)) / 1000⌉) ∧
    ((hands.any (fun h => h.gesture = "peace")) = false →
        (GestureTimer.applyPendingReset st now).isCapturing = false →
        (GestureTimer.gestureStep st hands now).1.peaceSignStartTime = none ∧
        GestureTimer.GEvent.capture ∉ (GestureTimer.gestureStep st hands now).2) ∧
    (∀ s, (hands.any (fun h => h.gesture = "peace")) = true →
        (GestureTimer.applyPendingReset st now).isCapturing = false →
        (GestureTimer.applyPendingReset st now).peaceSignStartTime = some s →
        3000 ≤ now - s →
        (GestureTimer.gestureStep st hands now).2 = [GestureTimer.GEvent.capture] ∧
        (GestureTimer.gestureStep st hands now).1.isCapturing = true ∧
        (GestureTimer.gestureStep st hands now).1.pendingReset = some (now + 2000)) ∧
    ((GestureTimer.applyPendingReset st now).isCapturing = true →
        (GestureTimer.gestureStep st hands now).1 = GestureTimer.applyPendingReset st now ∧
        (GestureTimer.gestureStep st hands now).2 = []) := by
  unfold GestureTimer.gestureStep
  set st' := GestureTimer.applyPendingReset st now with hst'
  set hasPeace := hands.any (fun h => h.gesture = "peace") with hhp
  dsimp only
  refine ⟨?_, ?_, ?_, ?_⟩
  · intro n hn
    cases hp : hasPeace <;> rw [hp] at hn
    · simp [GestureTimer.checkPeaceSign, apply_ite] at hn
    · cases hcap : st'.isCapturing
      · rcases hs : st'.peaceSignStartTime with _ | s
        · simp [GestureTimer.checkPeaceSign, hcap, hs] at hn
        · rw [GestureTimer.checkPeaceSign] at hn
          simp only [hs, hcap, Bool.not_false, Bool.and_true, if_true] at hn
          by_cases hrem : 0 < ⌈(3000 - (now - s)) / 1000⌉
          · rw [if_pos hrem] at hn
            simp at hn
            refine ⟨s, rfl, rfl, rfl, ?_, hn⟩
            have hpos : (0:ℚ) < (3000 - (now - s)) / 1000 := Int.ceil_pos.mp hrem
            rcases div_pos_iff.mp hpos with ⟨ha, _⟩ | ⟨_, hb⟩
            · linarith
            · linarith
          · rw [if_neg hrem] at hn
            simp at hn
      · simp [GestureTimer.checkPeaceSign, hcap] at hn
  · intro hp hcap
    rcases hs : st'.peaceSignStartTime with _ | s <;>
      simp [GestureTimer.checkPeaceSign, hp, hcap, hs]
  · intro s hp hcap hs h3000
    have h1 : ((3000 - (now - s)) / 1000 : ℚ) ≤ 0 :=
      div_nonpos_of_nonpos_of_nonneg (by linarith) (by norm_num)
    have hrem : ⌈(3000 - (now - s)) / 1000⌉ ≤ 0 :=
      Int.ceil_le.mpr (by exact_mod_cast h1)
    rw [hp, GestureTimer.checkPeaceSign]
    simp only [hs, hcap, Bool.not_false, Bool.and_true, if_true]
    rw [if_neg (not_lt.mpr hrem)]
    exact ⟨rfl, rfl, rfl⟩
  · intro hcap
    cases hp : hasPeace <;>
      simp [GestureTimer.checkPeaceSign, hp, hcap]

/-- Witness for C4: the timer fires at exactly t=3000 after starting at t=0
(scheduling the reset for t=5000), and a frame at t=4000 — inside the 2000 ms
cooldown — with the symbol still present changes nothing and emits nothing. -/
theorem C4_gesture_timer_witness :
    ((GestureTimer.applyPendingReset ⟨some 0, false, none⟩ 3000).peaceSignStartTime = some 0) ∧
    ((GestureTimer.applyPendingReset ⟨some 0, false, none⟩ 3000).isCapturing = false) ∧
    ([Interaction.peaceHand].any (fun h => h.gesture = "peace") = true) ∧
    ((3000:ℚ) ≤ 3000 - 0) ∧
    ((GestureTimer.gestureStep ⟨some 0, false, none⟩ [Interaction.peaceHand] 3000).2 =
        [GestureTimer.GEvent.capture] ∧
      (GestureTimer.gestureStep ⟨some 0, false, none⟩
        [Interaction.peaceHand] 3000).1.isCapturing = true ∧
      (GestureTimer.gestureStep ⟨some 0, false, none⟩
        [Interaction.peaceHand] 3000).1.pendingReset = some (3000 + 2000)) ∧
    ((GestureTimer.applyPendingReset ⟨some 0, true, some 5000⟩ 4000).isCapturing = true ∧
      (GestureTimer.gestureStep ⟨some 0, true, some 5000⟩ [Interaction.peaceHand] 4000).1 =
        GestureTimer.applyPendingReset ⟨some 0, true, some 5000⟩ 4000 ∧
      (GestureTimer.gestureStep ⟨some 0, true, some 5000⟩ [Interaction.peaceHand] 4000).2 = []) := by
  have hp : [Interaction.peaceHand].any (fun h => h.gesture = "peace") = true := by
    simp [Interaction.peaceHand]
  have hcapA : (GestureTimer.applyPendingReset ⟨some 0, false, none⟩
      3000).isCapturing = false := rfl
  have hsA : (GestureTimer.applyPendingReset ⟨some 0, false, none⟩
      3000).peaceSignStartTime = some 0 := rfl
  have h3 : (3000:ℚ) ≤ 3000 - 0 := by norm_num
  have HA := (C4_gesture_timer ⟨some 0, false, none⟩ [Interaction.peaceHand] 3000).2.2.1
    0 hp hcapA hsA h3
  have hcapB : (GestureTimer.applyPendingReset ⟨some 0, true, some 5000⟩
      4000).isCapturing = true := by
    norm_num [GestureTimer.applyPendingReset]
  have HB := (C4_gesture_timer ⟨some 0, true, some 5000⟩ [Interaction.peaceHand] 4000).2.2.2 hcapB
  exact ⟨hsA, hcapA, hp, h3, HA, hcapB, HB.1, HB.2⟩
